import Mathlib

/-!  Verification of Mira (src/main.rs), a git-mirroring orchestrator.

The program is embedded shallowly.  The external world (filesystem queries,
directory creation, and the spawning of the external git tool) is abstracted
into an `Env` of oracle functions; the program's own logic is transcribed
function by function from `src/main.rs`.  Every function that issues git
commands additionally returns the list of spawned invocations (full argv,
including the `-C <dir>` prefix), so that properties about *which* commands
are issued can be stated.  The first component of each pair is exactly the
source function's return value.

Byte streams captured from the subprocess are represented by the result of
their best-effort UTF-8 decoding (the only operation the program applies to
them).  Paths are lists of components, as built by successive `PathBuf::push`
calls; rendering joins them with "/" (the Unix separator).  All path
components come from JSON strings, hence are valid UTF-8, so the
`path.to_str()` conversion in `run_git_command_in` never fails and is
embedded as total.  Whitespace is ASCII whitespace, which covers the output
of `git remote` that `split_whitespace` is applied to.
-/

namespace Mira

/-- Captured byte stream of a finished subprocess, represented by the result
of best-effort UTF-8 decoding: `decodeUtf8 = none` means the bytes were not
valid UTF-8 (Rust: `String::from_utf8(bytes).ok()`). -/
structure Bytes where
  decodeUtf8 : Option String
  deriving DecidableEq, Repr

/-- Observable outcome of a successfully spawned subprocess
(Rust `std::process::Output`): exit code plus the two captured streams. -/
structure ProcOutput where
  exitCode : Int
  stdout : Bytes
  stderr : Bytes
  deriving DecidableEq, Repr

/-- Rust `ExitStatus::success()`: the process exited with status code 0. -/
def ProcOutput.statusSuccess (o : ProcOutput) : Bool :=
  o.exitCode == 0

/-- A path, as the list of components pushed onto a `PathBuf`. -/
abbrev GitPath := List String

/-- Render a path for the `-C` argument of git (Unix separator). -/
def renderPath (p : GitPath) : String :=
  String.intercalate "/" p

/-- Environment of external effects: filesystem queries, recursive directory
creation, and spawning of the git tool.  `gitSpawn args = none` models
`Command::output()` returning `Err` (the process could not be spawned);
`some o` models a spawned process that finished with outcome `o`. -/
structure Env where
  isDir : GitPath → Bool
  pathExists : GitPath → Bool
  createDirAll : GitPath → Except String Unit
  gitSpawn : List String → Option ProcOutput

/-- Rust: `const MIRROR_REMOTE_NAME: &str = "mirror";` -/
def MIRROR_REMOTE_NAME : String := "mirror"

/-- Rust: `type GitCmdReturn = (bool, Option<String>);` -/
abbrev GitCmdReturn := Bool × Option String

/-- A trace of spawned git invocations (full argv of each). -/
abbrev Trace := List (List String)

/-- Tokenizer body for `splitWhitespace`: walk the characters, `acc` holding
the (reversed) characters of the token being read. -/
def splitWhitespaceAux : List Char → List Char → List String
  | [], acc => if acc.isEmpty then [] else [String.mk acc.reverse]
  | c :: rest, acc =>
    if c.isWhitespace then
      if acc.isEmpty then splitWhitespaceAux rest []
      else String.mk acc.reverse :: splitWhitespaceAux rest []
    else splitWhitespaceAux rest (c :: acc)

/-- Rust `str::split_whitespace`: split on runs of whitespace, producing no
empty tokens. -/
def splitWhitespace (s : String) : List String :=
  splitWhitespaceAux s.toList []

/-- `run_git_command` (main.rs:225): spawn git with `args`; on a spawned
process, success iff exit status 0, captured text is stdout on success and
stderr on failure (UTF-8 best effort); on a spawn error, `(false, none)`. -/
def run_git_command (env : Env) (args : List String) : GitCmdReturn :=
  match env.gitSpawn args with
  | Option.some output =>
    let success := output.statusSuccess
    let text := if success then output.stdout.decodeUtf8 else output.stderr.decodeUtf8
    (success, text)
  | Option.none => (false, Option.none)

/-- Full argv of a git invocation with a forced working directory
(main.rs:246: `vec!("-C", path)` extended with the wrapper's args). -/
def gitFullArgs (args : List String) (path : GitPath) : List String :=
  ["-C", renderPath path] ++ args

/-- `run_git_command_in` (main.rs:241), paired with the spawned invocation. -/
def run_git_command_in (env : Env) (args : List String) (path : GitPath) :
    GitCmdReturn × Trace :=
  (run_git_command env (gitFullArgs args path), [gitFullArgs args path])

/-- `clone` (main.rs:193): `clone --mirror <url> <name>` in `path`. -/
def clone (env : Env) (url : String) (path : GitPath) (name : String) :
    GitCmdReturn × Trace :=
  run_git_command_in env ["clone", "--mirror", url, name] path

/-- `fetch` (main.rs:199): `fetch` in `path`. -/
def fetch (env : Env) (path : GitPath) : GitCmdReturn × Trace :=
  run_git_command_in env ["fetch"] path

/-- `get_remotes` (main.rs:204): run `remote` in `path`; on command failure
`none`, otherwise the captured stdout split on whitespace (still `none` when
the stdout was not valid UTF-8). -/
def get_remotes (env : Env) (path : GitPath) : Option (List String) × Trace :=
  let (r, t) := run_git_command_in env ["remote"] path
  match r with
  | (success, stdout) =>
    if !success then (Option.none, t)
    else (stdout.map fun s => splitWhitespace s, t)

/-- `add_mirror_remote` (main.rs:213): `remote add mirror <url>` in `path`. -/
def add_mirror_remote (env : Env) (path : GitPath) (url : String) :
    GitCmdReturn × Trace :=
  run_git_command_in env ["remote", "add", MIRROR_REMOTE_NAME, url] path

/-- `push` (main.rs:219): `push --mirror mirror` in `path`. -/
def push (env : Env) (path : GitPath) : GitCmdReturn × Trace :=
  run_git_command_in env ["push", "--mirror", MIRROR_REMOTE_NAME] path

/-- Result of a mirror operation (main.rs:80). -/
inductive MirrorResult where
  | Success
  | CloneFailed
  | FetchFailed
  | RemotesError
  | PushFailed
  deriving DecidableEq, Repr

/-- `check_git_return` (main.rs:180): `some on_error` when the command
failed, `none` when it succeeded. -/
def check_git_return (cmd_return : GitCmdReturn) (on_error : MirrorResult) :
    Option MirrorResult :=
  match cmd_return with
  | (false, _) => Option.some on_error
  | _ => Option.none

/-- Remote-discovery, remote-provisioning and push stages of `mirror_repo`
(main.rs:153-170), the straight-line continuation shared by the clone and
fetch branches: query the remotes, add the mirror remote when absent, push. -/
def mirror_remotes_and_push (env : Env) (dest_url : String) (repo_path : GitPath) :
    Except String MirrorResult × Trace :=
  let (remotesOpt, t2) := get_remotes env repo_path
  match remotesOpt with
  | Option.none => (Except.ok MirrorResult.RemotesError, t2)
  | Option.some remotes =>
    let (step3, t3) :=
      if !(remotes.contains MIRROR_REMOTE_NAME) then
        let (r, t) := add_mirror_remote env repo_path dest_url
        (check_git_return r MirrorResult.RemotesError, t)
      else (Option.none, ([] : Trace))
    match step3 with
    | Option.some e => (Except.ok e, t2 ++ t3)
    | Option.none =>
      let (r, t4) := push env repo_path
      match check_git_return r MirrorResult.PushFailed with
      | Option.some e => (Except.ok e, t2 ++ t3 ++ t4)
      | Option.none => (Except.ok MirrorResult.Success, t2 ++ t3 ++ t4)

/-- `mirror_repo` (main.rs:135): clone when `path/name` does not exist,
fetch when it does, then remotes and push.  Every failure is returned as an
`Except.ok`-wrapped `MirrorResult` value, exactly as in the source, whose
`io::Error` slot is never filled. -/
def mirror_repo (env : Env) (name src_url dest_url : String) (path : GitPath) :
    Except String MirrorResult × Trace :=
  let repo_path := path ++ [name]
  if !(env.pathExists repo_path) then
    let (r, t1) := clone env src_url path name
    match check_git_return r MirrorResult.CloneFailed with
    | Option.some e => (Except.ok e, t1)
    | Option.none =>
      let (res, trest) := mirror_remotes_and_push env dest_url repo_path
      (res, t1 ++ trest)
  else
    let (r, t1) := fetch env repo_path
    match check_git_return r MirrorResult.FetchFailed with
    | Option.some e => (Except.ok e, t1)
    | Option.none =>
      let (res, trest) := mirror_remotes_and_push env dest_url repo_path
      (res, t1 ++ trest)

/-- `Mirror` (main.rs:52). -/
structure Mirror where
  name : String
  src : String
  dest : String
  deriving DecidableEq, Repr

/-- `Configuration` (main.rs:45). -/
structure Configuration where
  name : String
  mirrors : List Mirror
  deriving DecidableEq, Repr

/-- `RootConfig` (main.rs:38). -/
structure RootConfig where
  workspace : String
  configurations : List Configuration
  deriving DecidableEq, Repr

/-- Loop body of `process_config` (main.rs:103-127): mirror one repository
and update the `complete_success` flag, accumulating the trace. -/
def process_config_step (env : Env) (config_path : GitPath)
    (acc : Bool × Trace) (mirror : Mirror) : Bool × Trace :=
  let (res, t) := mirror_repo env mirror.name mirror.src mirror.dest config_path
  let flag :=
    match res with
    | Except.ok MirrorResult.Success => acc.1
    | Except.ok MirrorResult.CloneFailed => false
    | Except.ok MirrorResult.FetchFailed => false
    | Except.ok MirrorResult.RemotesError => false
    | Except.ok MirrorResult.PushFailed => false
    | Except.error _ => false
  (flag, acc.2 ++ t)

/-- `process_config` (main.rs:93): create the configuration directory when
absent (propagating the creation error), then mirror every repository,
returning `true` only when every mirror succeeded. -/
def process_config (env : Env) (config : Configuration) (workspace : GitPath) :
    Except String Bool × Trace :=
  let config_path := workspace ++ [config.name]
  let setup : Except String Unit :=
    if !(env.isDir config_path) then env.createDirAll config_path
    else Except.ok ()
  match setup with
  | Except.error e => (Except.error e, [])
  | Except.ok _ =>
    let result := config.mirrors.foldl (process_config_step env config_path)
      (true, ([] : Trace))
    (Except.ok result.1, result.2)

/-- Loop body of `process_root_config` (main.rs:70-75): the flag is cleared
only by `if let Err(e) = process_config(..)`; an `Ok` result, whatever
boolean it carries, leaves the flag unchanged. -/
def process_root_config_step (env : Env) (workspace : GitPath)
    (acc : Bool × Trace) (config : Configuration) : Bool × Trace :=
  let (res, t) := process_config env config workspace
  let flag :=
    match res with
    | Except.error _ => false
    | Except.ok _ => acc.1
  (flag, acc.2 ++ t)

/-- `process_root_config` (main.rs:59): create the workspace directory when
absent (returning `false` at once on failure), then process every
configuration. -/
def process_root_config (env : Env) (root_config : RootConfig) : Bool × Trace :=
  let workspace : GitPath := [root_config.workspace]
  let setup : Except String Unit :=
    if !(env.isDir workspace) then env.createDirAll workspace
    else Except.ok ()
  match setup with
  | Except.error _ => (false, [])
  | Except.ok _ =>
    root_config.configurations.foldl (process_root_config_step env workspace)
      (true, ([] : Trace))

/-- True exactly on `Ok(MirrorResult::Success)`. -/
def isSuccessResult : Except String MirrorResult → Bool
  | Except.ok MirrorResult.Success => true
  | _ => false

/-- Full argv of the clone invocation issued by `clone`. -/
abbrev cloneCmd (src_url name : String) (path : GitPath) : List String :=
  gitFullArgs ["clone", "--mirror", src_url, name] path

/-- Full argv of the fetch invocation issued by `fetch`. -/
abbrev fetchCmd (rp : GitPath) : List String :=
  gitFullArgs ["fetch"] rp

/-- Full argv of the remote-discovery invocation issued by `get_remotes`. -/
abbrev remoteCmd (rp : GitPath) : List String :=
  gitFullArgs ["remote"] rp

/-- Full argv of the invocation issued by `add_mirror_remote`. -/
abbrev remoteAddCmd (rp : GitPath) (dest_url : String) : List String :=
  gitFullArgs ["remote", "add", MIRROR_REMOTE_NAME, dest_url] rp

/-- Full argv of the invocation issued by `push`. -/
abbrev pushCmd (rp : GitPath) : List String :=
  gitFullArgs ["push", "--mirror", MIRROR_REMOTE_NAME] rp

/-- First git invocation of `mirror_repo`: fetch when `path/name` exists,
clone otherwise. -/
def step1Cmd (env : Env) (name src_url : String) (path : GitPath) : List String :=
  if env.pathExists (path ++ [name]) then fetchCmd (path ++ [name])
  else cloneCmd src_url name path

/-- Outcome of the final push stage: `PushFailed` when the push invocation
fails, `Success` otherwise. -/
def pushOutcome (env : Env) (rp : GitPath) : Except String MirrorResult :=
  if (run_git_command env (pushCmd rp)).1 = false then Except.ok MirrorResult.PushFailed
  else Except.ok MirrorResult.Success

/-!  Concrete environments and configurations used as test inputs. -/

/-- Environment where both directories exist, no repository directory does,
and every git invocation spawns but exits with status 1. -/
def envGitAlwaysFails : Env :=
  ⟨fun _ => true, fun _ => false, fun _ => Except.ok (),
   fun _ => Option.some ⟨1, ⟨Option.some "out"⟩, ⟨Option.some "err"⟩⟩⟩

/-- Environment where every git invocation spawns and exits with status 0,
with empty captured streams; no repository directory exists yet. -/
def envGitAllOk : Env :=
  ⟨fun _ => true, fun _ => false, fun _ => Except.ok (),
   fun _ => Option.some ⟨0, ⟨Option.some ""⟩, ⟨Option.some ""⟩⟩⟩

/-- Environment where git can never be spawned at all. -/
def envSpawnFails : Env :=
  ⟨fun _ => true, fun _ => false, fun _ => Except.ok (), fun _ => Option.none⟩

/-- A root configuration with one configuration holding one mirror. -/
def rootConfigOneMirror : RootConfig :=
  ⟨"ws", [⟨"cfg", [⟨"repo", "srcU", "destU"⟩]⟩]⟩

/-- Environment whose workspace directory is absent and cannot be created. -/
def envNoWorkspace : Env :=
  ⟨fun _ => false, fun _ => false, fun _ => Except.error "denied",
   fun _ => Option.none⟩

/-- Environment where the first mirror's clone fails (its source URL is
`badsrc`) and every other git invocation succeeds with empty output. -/
def envFirstCloneFails : Env :=
  ⟨fun _ => true, fun _ => false, fun _ => Except.ok (),
   fun args =>
     if args.contains "badsrc" then Option.some ⟨1, ⟨Option.some ""⟩, ⟨Option.some ""⟩⟩
     else Option.some ⟨0, ⟨Option.some ""⟩, ⟨Option.some ""⟩⟩⟩

/-- A configuration with two mirrors, the first of which has source `badsrc`. -/
def cfgTwoMirrors : Configuration :=
  ⟨"cfg", [⟨"a", "badsrc", "da"⟩, ⟨"b", "sb", "db"⟩]⟩

/-- Environment where the `bad` configuration subdirectory is absent and
cannot be created, while everything else (directories and git) succeeds. -/
def envBadCfgDir : Env :=
  ⟨fun p => !p.contains "bad", fun _ => false,
   fun p => if p.contains "bad" then Except.error "denied" else Except.ok (),
   fun _ => Option.some ⟨0, ⟨Option.some ""⟩, ⟨Option.some ""⟩⟩⟩

/-- Root configuration whose first configuration is `bad`, followed by `good`. -/
def rcBadThenGood : RootConfig :=
  ⟨"ws", [⟨"bad", [⟨"r", "s", "d"⟩]⟩, ⟨"good", [⟨"r", "s", "d"⟩]⟩]⟩

/-- Environment like `envGitAlwaysFails` but with the repository directory
already present, so that the fetch branch is taken. -/
def envGitFailsRepoExists : Env :=
  ⟨fun _ => true, fun _ => true, fun _ => Except.ok (),
   fun _ => Option.some ⟨1, ⟨Option.some "out"⟩, ⟨Option.some "err"⟩⟩⟩

/-- Environment where only invocations carrying a `remote` argument fail. -/
def envRemoteFails : Env :=
  ⟨fun _ => true, fun _ => false, fun _ => Except.ok (),
   fun args =>
     if args.contains "remote" then Option.some ⟨1, ⟨Option.some ""⟩, ⟨Option.some ""⟩⟩
     else Option.some ⟨0, ⟨Option.some ""⟩, ⟨Option.some ""⟩⟩⟩

/-- Environment where only invocations carrying an `add` argument fail. -/
def envAddFails : Env :=
  ⟨fun _ => true, fun _ => false, fun _ => Except.ok (),
   fun args =>
     if args.contains "add" then Option.some ⟨1, ⟨Option.some ""⟩, ⟨Option.some ""⟩⟩
     else Option.some ⟨0, ⟨Option.some ""⟩, ⟨Option.some ""⟩⟩⟩

/-- Environment where only invocations carrying a `push` argument fail. -/
def envPushFails : Env :=
  ⟨fun _ => true, fun _ => false, fun _ => Except.ok (),
   fun args =>
     if args.contains "push" then Option.some ⟨1, ⟨Option.some ""⟩, ⟨Option.some ""⟩⟩
     else Option.some ⟨0, ⟨Option.some ""⟩, ⟨Option.some ""⟩⟩⟩

/-- Environment where every git invocation succeeds, the repository directory
exists, and the remote discovery reports `origin` and `mirror`. -/
def envHasMirror : Env :=
  ⟨fun _ => true, fun _ => true, fun _ => Except.ok (),
   fun _ => Option.some ⟨0, ⟨Option.some "origin\nmirror\n"⟩, ⟨Option.some ""⟩⟩⟩

/-- Environment modelling a plain file sitting at the repository path: the
path exists (Rust `Path::exists()` is true) but nothing there is a
directory (`Path::is_dir()` is false everywhere); git always succeeds. -/
def envFileAtRepoPath : Env :=
  ⟨fun _ => false, fun _ => true, fun _ => Except.ok (),
   fun _ => Option.some ⟨0, ⟨Option.some ""⟩, ⟨Option.some ""⟩⟩⟩

/-- Environment where every git invocation exits 0, but the standard output
of invocations carrying a `remote` argument is not valid UTF-8. -/
def envRemoteUtf8Bad : Env :=
  ⟨fun _ => true, fun _ => false, fun _ => Except.ok (),
   fun args =>
     if args.contains "remote" then Option.some ⟨0, ⟨Option.none⟩, ⟨Option.some ""⟩⟩
     else Option.some ⟨0, ⟨Option.some ""⟩, ⟨Option.some ""⟩⟩⟩

/-!  Helper lemmas. -/

lemma check_git_return_of_false (r : GitCmdReturn) (e : MirrorResult)
    (h : r.1 = false) : check_git_return r e = Option.some e := by
  obtain ⟨b, o⟩ := r
  cases b
  · rfl
  · simp at h

lemma check_git_return_of_true (r : GitCmdReturn) (e : MirrorResult)
    (h : r.1 = true) : check_git_return r e = Option.none := by
  obtain ⟨b, o⟩ := r
  cases b
  · simp at h
  · rfl

lemma mirror_remotes_and_push_ok (env : Env) (dest_url : String) (rp : GitPath) :
    ∃ r : MirrorResult, (mirror_remotes_and_push env dest_url rp).1 = Except.ok r := by
  unfold mirror_remotes_and_push
  repeat' split
  all_goals exact ⟨_, rfl⟩

lemma process_config_step_eq (env : Env) (cp : GitPath) (b : Bool) (tr : Trace)
    (m : Mirror) :
    process_config_step env cp (b, tr) m =
      (b && isSuccessResult (mirror_repo env m.name m.src m.dest cp).1,
       tr ++ (mirror_repo env m.name m.src m.dest cp).2) := by
  unfold process_config_step
  rcases hmr : mirror_repo env m.name m.src m.dest cp with ⟨res, t⟩
  rcases res with e | r
  · simp [isSuccessResult]
  · cases r <;> simp [isSuccessResult]

lemma foldl_process_config_step (env : Env) (cp : GitPath) (mirrors : List Mirror)
    (b : Bool) (tr : Trace) :
    mirrors.foldl (process_config_step env cp) (b, tr) =
      (b && mirrors.all (fun m => isSuccessResult (mirror_repo env m.name m.src m.dest cp).1),
       tr ++ mirrors.flatMap (fun m => (mirror_repo env m.name m.src m.dest cp).2)) := by
  induction mirrors generalizing b tr with
  | nil => simp
  | cons m rest ih =>
    simp only [List.foldl_cons, List.all_cons, List.flatMap_cons,
      process_config_step_eq, ih, Bool.and_assoc, List.append_assoc]

lemma process_root_config_step_eq (env : Env) (ws : GitPath) (b : Bool) (tr : Trace)
    (c : Configuration) :
    process_root_config_step env ws (b, tr) c =
      (b && (process_config env c ws).1.isOk,
       tr ++ (process_config env c ws).2) := by
  unfold process_root_config_step
  rcases hpc : process_config env c ws with ⟨res, t⟩
  rcases res with e | r <;> simp [Except.isOk, Except.toBool]

lemma foldl_process_root_config_step (env : Env) (ws : GitPath)
    (configs : List Configuration) (b : Bool) (tr : Trace) :
    configs.foldl (process_root_config_step env ws) (b, tr) =
      (b && configs.all (fun c => (process_config env c ws).1.isOk),
       tr ++ configs.flatMap (fun c => (process_config env c ws).2)) := by
  induction configs generalizing b tr with
  | nil => simp
  | cons c rest ih =>
    simp only [List.foldl_cons, List.all_cons, List.flatMap_cons,
      process_root_config_step_eq, ih, Bool.and_assoc, List.append_assoc]

/-- Characterization of `process_config` when the configuration directory is
available: the flag is the conjunction of per-mirror successes and the trace
is the in-order concatenation of per-mirror traces. -/
lemma process_config_eq (env : Env) (c : Configuration) (ws : GitPath)
    (h : (if !(env.isDir (ws ++ [c.name])) then env.createDirAll (ws ++ [c.name])
          else Except.ok ()) = Except.ok ()) :
    process_config env c ws =
      (Except.ok (c.mirrors.all fun m =>
         isSuccessResult (mirror_repo env m.name m.src m.dest (ws ++ [c.name])).1),
       c.mirrors.flatMap fun m =>
         (mirror_repo env m.name m.src m.dest (ws ++ [c.name])).2) := by
  unfold process_config
  simp only [h, foldl_process_config_step]
  simp

/-- Characterization of `process_root_config` when the workspace directory is
available: the flag only records whether each `process_config` call returned
`Ok` at all (the boolean inside the `Ok` is discarded by the source's
`if let Err`), and the trace is the in-order concatenation of per-configuration
traces. -/
lemma process_root_config_eq (env : Env) (rc : RootConfig)
    (h : (if !(env.isDir [rc.workspace]) then env.createDirAll [rc.workspace]
          else Except.ok ()) = Except.ok ()) :
    process_root_config env rc =
      (rc.configurations.all (fun c => (process_config env c [rc.workspace]).1.isOk),
       rc.configurations.flatMap fun c => (process_config env c [rc.workspace]).2) := by
  unfold process_root_config
  simp only [h, foldl_process_root_config_step]
  simp

/-!  Claim theorems. -/

/-- Claim C1 (counterexample evaluation): the root orchestrator does NOT
return false when a mirror fails.  In an environment where every git command
exits with status 1, the single mirror's outcome is `CloneFailed` (not
`Success`), `process_config` duly returns `Ok false`, and yet
`process_root_config` returns `true`: the source's `if let Err(e) =
process_config(..)` (main.rs:71) discards the boolean carried by the `Ok`
result, contradicting the function's own documentation "return true on
complete success". -/
theorem root_aggregate_ignores_mirror_failure :
    (mirror_repo envGitAlwaysFails "repo" "srcU" "destU" ["ws", "cfg"]).1
        = Except.ok MirrorResult.CloneFailed ∧
    (process_config envGitAlwaysFails ⟨"cfg", [⟨"repo", "srcU", "destU"⟩]⟩ ["ws"]).1
        = Except.ok false ∧
    (process_root_config envGitAlwaysFails rootConfigOneMirror).1 = true :=
  ⟨rfl, rfl, rfl⟩

/-- Claim C6: for every invocation of `run_git_command`, (a) on a spawned
process the success flag is the test "exit status = 0" and the captured text
is the UTF-8 decoding of stdout on success and of stderr on failure, (b) when
the process cannot be spawned the result is `(false, none)`, and (c) the
success flag is true iff the tool was spawned and exited with status 0. -/
theorem run_git_command_contract (env : Env) (args : List String) :
    (∀ o : ProcOutput, env.gitSpawn args = Option.some o →
       run_git_command env args =
         (o.exitCode == 0,
          if o.exitCode == 0 then o.stdout.decodeUtf8 else o.stderr.decodeUtf8))
    ∧ (env.gitSpawn args = Option.none →
       run_git_command env args = (false, Option.none))
    ∧ ((run_git_command env args).1 = true ↔
       ∃ o : ProcOutput, env.gitSpawn args = Option.some o ∧ o.exitCode = 0) := by
  refine ⟨?_, ?_, ?_⟩
  · intro o h
    unfold run_git_command
    rw [h]
    rfl
  · intro h
    unfold run_git_command
    rw [h]
  · unfold run_git_command
    cases h : env.gitSpawn args with
    | none => simp
    | some o => simp [ProcOutput.statusSuccess]

/-- Witness for C6 at concrete inputs: a spawned process exiting 1 yields
`(false, stderr)`, an unspawnable process yields `(false, none)`. -/
theorem run_git_command_contract_witness :
    run_git_command envGitAlwaysFails ["status"] = (false, Option.some "err") ∧
    run_git_command envSpawnFails ["status"] = (false, Option.none) := by
  constructor
  · have h := (run_git_command_contract envGitAlwaysFails ["status"]).1
      ⟨1, ⟨Option.some "out"⟩, ⟨Option.some "err"⟩⟩ rfl
    simpa using h
  · exact (run_git_command_contract envSpawnFails ["status"]).2.1 rfl

/-- Claim C7: `mirror_repo` never raises: on every input it returns an
`Except.ok`-wrapped `MirrorResult`, so the `io::Error` side of its return
type (and the `Err` arm of the per-mirror match in `process_config`) is
unreachable. -/
theorem mirror_repo_never_raises (env : Env) (name src_url dest_url : String)
    (path : GitPath) :
    ∃ r : MirrorResult, (mirror_repo env name src_url dest_url path).1 = Except.ok r := by
  obtain ⟨r1, hr1⟩ := mirror_remotes_and_push_ok env dest_url (path ++ [name])
  unfold mirror_repo
  dsimp only
  rcases hmp : mirror_remotes_and_push env dest_url (path ++ [name]) with ⟨res, trest⟩
  rw [hmp] at hr1
  repeat' split
  all_goals first
    | exact ⟨_, rfl⟩
    | exact ⟨r1, hr1⟩

/-- Claim C8: when the workspace root directory is absent and its creation
fails, `process_root_config` returns false at once with an empty trace: no
configuration is processed and no git command is ever issued. -/
theorem workspace_create_failure_aborts (env : Env) (rc : RootConfig) (e : String)
    (h1 : env.isDir [rc.workspace] = false)
    (h2 : env.createDirAll [rc.workspace] = Except.error e) :
    process_root_config env rc = (false, []) := by
  simp [process_root_config, h1, h2]

/-- Witness for C8 at a concrete input. -/
theorem workspace_create_failure_aborts_witness :
    process_root_config envNoWorkspace rootConfigOneMirror = (false, []) :=
  workspace_create_failure_aborts envNoWorkspace rootConfigOneMirror "denied" rfl rfl

/-- Claim C2: once its directory is available, `process_config` never
short-circuits: its result is the `Ok`-wrapped conjunction of per-mirror
successes over ALL mirrors, and its trace is the in-order concatenation of
the traces of ALL mirrors, where each mirror's outcome and trace
(`mirror_repo env m.name m.src m.dest ..`) is a function of the environment
and of that mirror alone — so the i-th mirror is processed, in declaration
order, regardless of the outcomes of the mirrors before it, and the returned
boolean is true iff every mirror's outcome was `Success`. -/
theorem process_config_processes_all_mirrors (env : Env) (c : Configuration)
    (ws : GitPath)
    (h : (if !(env.isDir (ws ++ [c.name])) then env.createDirAll (ws ++ [c.name])
          else Except.ok ()) = Except.ok ()) :
    process_config env c ws =
      (Except.ok (c.mirrors.all fun m =>
         isSuccessResult (mirror_repo env m.name m.src m.dest (ws ++ [c.name])).1),
       c.mirrors.flatMap fun m =>
         (mirror_repo env m.name m.src m.dest (ws ++ [c.name])).2) :=
  process_config_eq env c ws h

/-- Witness for C2: with the first mirror's clone failing, the second mirror
is still fully processed (its clone, remote, remote add and push all appear
in the trace) and the returned flag is false. -/
theorem process_config_processes_all_mirrors_witness :
    process_config envFirstCloneFails cfgTwoMirrors ["ws"] =
      (Except.ok false,
       [["-C", "ws/cfg", "clone", "--mirror", "badsrc", "a"],
        ["-C", "ws/cfg", "clone", "--mirror", "sb", "b"],
        ["-C", "ws/cfg/b", "remote"],
        ["-C", "ws/cfg/b", "remote", "add", "mirror", "db"],
        ["-C", "ws/cfg/b", "push", "--mirror", "mirror"]]) := by
  rw [process_config_processes_all_mirrors envFirstCloneFails cfgTwoMirrors ["ws"] rfl]
  rfl

/-- Claim C9: when one configuration's subdirectory cannot be created, the
error is propagated out of `process_config` as an `Err` (with no git command
issued for that configuration), the overall flag of `process_root_config` is
false, and the root trace is still the in-order concatenation of EVERY
configuration's trace — so configurations after the failed one are still
processed. -/
theorem config_error_isolated (env : Env) (rc : RootConfig)
    (pre post : List Configuration) (c : Configuration) (e : String)
    (hconf : rc.configurations = pre ++ c :: post)
    (hws : (if !(env.isDir [rc.workspace]) then env.createDirAll [rc.workspace]
            else Except.ok ()) = Except.ok ())
    (h1 : env.isDir [rc.workspace, c.name] = false)
    (h2 : env.createDirAll [rc.workspace, c.name] = Except.error e) :
    process_config env c [rc.workspace] = (Except.error e, [])
    ∧ (process_root_config env rc).1 = false
    ∧ (process_root_config env rc).2 =
        rc.configurations.flatMap fun cc => (process_config env cc [rc.workspace]).2 := by
  have hc : process_config env c [rc.workspace] = (Except.error e, []) := by
    simp [process_config, h1, h2]
  have hroot := process_root_config_eq env rc hws
  refine ⟨hc, ?_, ?_⟩
  · rw [hroot, hconf]
    simp [List.all_append, List.all_cons, hc, Except.isOk, Except.toBool]
  · rw [hroot]

/-- Witness for C9: the `bad` configuration's directory creation fails, yet
the `good` configuration after it is still processed. -/
theorem config_error_isolated_witness :
    process_config envBadCfgDir ⟨"bad", [⟨"r", "s", "d"⟩]⟩ ["ws"]
      = (Except.error "denied", [])
    ∧ (process_root_config envBadCfgDir rcBadThenGood).1 = false
    ∧ (process_root_config envBadCfgDir rcBadThenGood).2 =
        rcBadThenGood.configurations.flatMap fun cc =>
          (process_config envBadCfgDir cc ["ws"]).2 :=
  config_error_isolated envBadCfgDir rcBadThenGood [] [⟨"good", [⟨"r", "s", "d"⟩]⟩]
    ⟨"bad", [⟨"r", "s", "d"⟩]⟩ "denied" rfl rfl rfl rfl

lemma mirror_repo_clone_fail (env : Env) (name src_url dest_url : String)
    (path : GitPath)
    (h1 : env.pathExists (path ++ [name]) = false)
    (h2 : (run_git_command env (cloneCmd src_url name path)).1 = false) :
    mirror_repo env name src_url dest_url path =
      (Except.ok MirrorResult.CloneFailed, [cloneCmd src_url name path]) := by
  unfold mirror_repo clone run_git_command_in
  simp only [h1, Bool.not_false, if_true, check_git_return_of_false _ _ h2]

lemma mirror_repo_fetch_fail (env : Env) (name src_url dest_url : String)
    (path : GitPath)
    (h1 : env.pathExists (path ++ [name]) = true)
    (h2 : (run_git_command env (fetchCmd (path ++ [name]))).1 = false) :
    mirror_repo env name src_url dest_url path =
      (Except.ok MirrorResult.FetchFailed, [fetchCmd (path ++ [name])]) := by
  unfold mirror_repo fetch run_git_command_in
  simp [h1, check_git_return_of_false _ _ h2]

lemma mirror_repo_clone_ok (env : Env) (name src_url dest_url : String)
    (path : GitPath)
    (h1 : env.pathExists (path ++ [name]) = false)
    (h2 : (run_git_command env (cloneCmd src_url name path)).1 = true) :
    mirror_repo env name src_url dest_url path =
      ((mirror_remotes_and_push env dest_url (path ++ [name])).1,
       cloneCmd src_url name path ::
         (mirror_remotes_and_push env dest_url (path ++ [name])).2) := by
  unfold mirror_repo clone run_git_command_in
  rcases hmp : mirror_remotes_and_push env dest_url (path ++ [name]) with ⟨res, trest⟩
  simp [h1, check_git_return_of_true _ _ h2, hmp]

lemma mirror_repo_fetch_ok (env : Env) (name src_url dest_url : String)
    (path : GitPath)
    (h1 : env.pathExists (path ++ [name]) = true)
    (h2 : (run_git_command env (fetchCmd (path ++ [name]))).1 = true) :
    mirror_repo env name src_url dest_url path =
      ((mirror_remotes_and_push env dest_url (path ++ [name])).1,
       fetchCmd (path ++ [name]) ::
         (mirror_remotes_and_push env dest_url (path ++ [name])).2) := by
  unfold mirror_repo fetch run_git_command_in
  rcases hmp : mirror_remotes_and_push env dest_url (path ++ [name]) with ⟨res, trest⟩
  simp [h1, check_git_return_of_true _ _ h2, hmp]

lemma mirror_repo_step1_ok (env : Env) (name src_url dest_url : String)
    (path : GitPath)
    (h : (run_git_command env (step1Cmd env name src_url path)).1 = true) :
    mirror_repo env name src_url dest_url path =
      ((mirror_remotes_and_push env dest_url (path ++ [name])).1,
       step1Cmd env name src_url path ::
         (mirror_remotes_and_push env dest_url (path ++ [name])).2) := by
  cases hpe : env.pathExists (path ++ [name]) with
  | false =>
    simp only [step1Cmd, hpe] at h ⊢
    simp at h ⊢
    exact mirror_repo_clone_ok env name src_url dest_url path hpe h
  | true =>
    simp only [step1Cmd, hpe] at h ⊢
    simp at h ⊢
    exact mirror_repo_fetch_ok env name src_url dest_url path hpe h

lemma mrp_remote_fail (env : Env) (dest_url : String) (rp : GitPath)
    (h : (run_git_command env (remoteCmd rp)).1 = false) :
    mirror_remotes_and_push env dest_url rp =
      (Except.ok MirrorResult.RemotesError, [remoteCmd rp]) := by
  unfold mirror_remotes_and_push get_remotes run_git_command_in
  rcases hr : run_git_command env (remoteCmd rp) with ⟨b, o⟩
  rw [hr] at h
  simp only at h
  subst h
  rfl

lemma mrp_remote_decode_none (env : Env) (dest_url : String) (rp : GitPath)
    (h : run_git_command env (remoteCmd rp) = (true, Option.none)) :
    mirror_remotes_and_push env dest_url rp =
      (Except.ok MirrorResult.RemotesError, [remoteCmd rp]) := by
  unfold mirror_remotes_and_push get_remotes run_git_command_in
  rw [h]
  rfl

lemma get_remotes_some (env : Env) (rp : GitPath) (s : String)
    (h : run_git_command env (remoteCmd rp) = (true, Option.some s)) :
    get_remotes env rp = (Option.some (splitWhitespace s), [remoteCmd rp]) := by
  unfold get_remotes run_git_command_in
  rw [h]
  rfl

lemma mirror_remotes_and_push_eq (env : Env) (dest_url : String) (rp : GitPath)
    (s : String)
    (h : run_git_command env (remoteCmd rp) = (true, Option.some s)) :
    mirror_remotes_and_push env dest_url rp =
      if MIRROR_REMOTE_NAME ∈ splitWhitespace s then
        (pushOutcome env rp, [remoteCmd rp, pushCmd rp])
      else if (run_git_command env (remoteAddCmd rp dest_url)).1 = false then
        (Except.ok MirrorResult.RemotesError, [remoteCmd rp, remoteAddCmd rp dest_url])
      else
        (pushOutcome env rp,
         [remoteCmd rp, remoteAddCmd rp dest_url, pushCmd rp]) := by
  unfold mirror_remotes_and_push add_mirror_remote push run_git_command_in pushOutcome
  rw [get_remotes_some env rp s h]
  by_cases hc : MIRROR_REMOTE_NAME ∈ splitWhitespace s
  · cases hp : (run_git_command env (pushCmd rp)).1 with
    | false => simp [hc, hp, check_git_return_of_false _ _ hp]
    | true => simp [hc, hp, check_git_return_of_true _ _ hp]
  · cases ha : (run_git_command env (remoteAddCmd rp dest_url)).1 with
    | false => simp [hc, ha, check_git_return_of_false _ _ ha]
    | true =>
      cases hp : (run_git_command env (pushCmd rp)).1 with
      | false => simp [hc, ha, hp, check_git_return_of_true _ _ ha,
          check_git_return_of_false _ _ hp]
      | true => simp [hc, ha, hp, check_git_return_of_true _ _ ha,
          check_git_return_of_true _ _ hp]

lemma mrp_trace_verbs (env : Env) (dest_url : String) (rp : GitPath) :
    ∀ a ∈ (mirror_remotes_and_push env dest_url rp).2,
      a[2]? = Option.some "remote" ∨ a[2]? = Option.some "push" := by
  rcases hr : run_git_command env (remoteCmd rp) with ⟨b, o⟩
  cases b with
  | false =>
    rw [mrp_remote_fail env dest_url rp (by rw [hr])]
    intro a ha
    simp only [List.mem_singleton] at ha
    subst ha
    exact Or.inl rfl
  | true =>
    cases o with
    | none =>
      rw [mrp_remote_decode_none env dest_url rp (by rw [hr])]
      intro a ha
      simp only [List.mem_singleton] at ha
      subst ha
      exact Or.inl rfl
    | some s =>
      rw [mirror_remotes_and_push_eq env dest_url rp s (by rw [hr])]
      by_cases hc : MIRROR_REMOTE_NAME ∈ splitWhitespace s
      · simp only [hc, if_true]
        intro a ha
        simp only [List.mem_cons, List.not_mem_nil, or_false] at ha
        rcases ha with rfl | rfl
        · exact Or.inl rfl
        · exact Or.inr rfl
      · by_cases hadd : (run_git_command env (remoteAddCmd rp dest_url)).1 = false
        · simp only [if_neg hc, hadd, if_true]
          intro a ha
          simp only [List.mem_cons, List.not_mem_nil, or_false] at ha
          rcases ha with rfl | rfl
          · exact Or.inl rfl
          · exact Or.inl rfl
        · simp only [if_neg hc, if_neg hadd]
          intro a ha
          simp only [List.mem_cons, List.not_mem_nil, or_false] at ha
          rcases ha with rfl | rfl | rfl
          · exact Or.inl rfl
          · exact Or.inl rfl
          · exact Or.inr rfl

lemma step1Cmd_not_remote_add (env : Env) (name src_url : String) (path : GitPath) :
    ((step1Cmd env name src_url path).get? 2 == Option.some "remote" &&
     (step1Cmd env name src_url path).get? 3 == Option.some "add") = false := by
  unfold step1Cmd
  by_cases hpe : env.pathExists (path ++ [name]) = true
  · rw [if_pos hpe]
    rfl
  · rw [if_neg hpe]
    rfl

/-- Claim C3: the mirror state machine is linear with terminal,
stage-precise failures.  (1) A clone failure yields exactly `CloneFailed`
and the trace is the clone invocation alone — no remote, remote add or push
is issued.  (2) A fetch failure yields exactly `FetchFailed`, again with no
further invocation.  (3) A remote-discovery failure after a successful first
step yields exactly `RemotesError` and nothing is issued past the `remote`
invocation.  (4) A remote-provisioning (`remote add`) failure yields exactly
`RemotesError` and push is not issued.  (5) A push failure yields exactly
`PushFailed`. -/
theorem mirror_repo_stage_precision (env : Env) (name src_url dest_url : String)
    (path : GitPath) :
    (env.pathExists (path ++ [name]) = false →
      (run_git_command env (cloneCmd src_url name path)).1 = false →
      mirror_repo env name src_url dest_url path =
        (Except.ok MirrorResult.CloneFailed, [cloneCmd src_url name path]))
    ∧ (env.pathExists (path ++ [name]) = true →
      (run_git_command env (fetchCmd (path ++ [name]))).1 = false →
      mirror_repo env name src_url dest_url path =
        (Except.ok MirrorResult.FetchFailed, [fetchCmd (path ++ [name])]))
    ∧ ((run_git_command env (step1Cmd env name src_url path)).1 = true →
      (run_git_command env (remoteCmd (path ++ [name]))).1 = false →
      mirror_repo env name src_url dest_url path =
        (Except.ok MirrorResult.RemotesError,
         [step1Cmd env name src_url path, remoteCmd (path ++ [name])]))
    ∧ (∀ s, (run_git_command env (step1Cmd env name src_url path)).1 = true →
      run_git_command env (remoteCmd (path ++ [name])) = (true, Option.some s) →
      MIRROR_REMOTE_NAME ∉ splitWhitespace s →
      (run_git_command env (remoteAddCmd (path ++ [name]) dest_url)).1 = false →
      mirror_repo env name src_url dest_url path =
        (Except.ok MirrorResult.RemotesError,
         [step1Cmd env name src_url path, remoteCmd (path ++ [name]),
          remoteAddCmd (path ++ [name]) dest_url]))
    ∧ (∀ s, (run_git_command env (step1Cmd env name src_url path)).1 = true →
      run_git_command env (remoteCmd (path ++ [name])) = (true, Option.some s) →
      (MIRROR_REMOTE_NAME ∈ splitWhitespace s ∨
        (run_git_command env (remoteAddCmd (path ++ [name]) dest_url)).1 = true) →
      (run_git_command env (pushCmd (path ++ [name]))).1 = false →
      (mirror_repo env name src_url dest_url path).1 = Except.ok MirrorResult.PushFailed) := by
  refine ⟨?_, ?_, ?_, ?_, ?_⟩
  · intro h1 h2
    exact mirror_repo_clone_fail env name src_url dest_url path h1 h2
  · intro h1 h2
    exact mirror_repo_fetch_fail env name src_url dest_url path h1 h2
  · intro h1 h2
    rw [mirror_repo_step1_ok env name src_url dest_url path h1,
        mrp_remote_fail env dest_url (path ++ [name]) h2]
  · intro s h1 h2 hc hadd
    rw [mirror_repo_step1_ok env name src_url dest_url path h1,
        mirror_remotes_and_push_eq env dest_url (path ++ [name]) s h2,
        if_neg hc, if_pos hadd]
  · intro s h1 h2 hor hp
    rw [mirror_repo_step1_ok env name src_url dest_url path h1,
        mirror_remotes_and_push_eq env dest_url (path ++ [name]) s h2]
    by_cases hc : MIRROR_REMOTE_NAME ∈ splitWhitespace s
    · rw [if_pos hc]
      show pushOutcome env (path ++ [name]) = Except.ok MirrorResult.PushFailed
      rw [pushOutcome, if_pos hp]
    · rcases hor with hor | hor
      · exact absurd hor hc
      · rw [if_neg hc, if_neg (by rw [hor]; exact fun h => by cases h)]
        show pushOutcome env (path ++ [name]) = Except.ok MirrorResult.PushFailed
        rw [pushOutcome, if_pos hp]

/-- Witness for C3: five concrete environments exercising each stage
failure, each discharged by the corresponding part of the theorem. -/
theorem mirror_repo_stage_precision_witness :
    mirror_repo envGitAlwaysFails "repo" "srcU" "destU" ["ws", "cfg"] =
      (Except.ok MirrorResult.CloneFailed, [cloneCmd "srcU" "repo" ["ws", "cfg"]])
    ∧ mirror_repo envGitFailsRepoExists "repo" "srcU" "destU" ["ws", "cfg"] =
      (Except.ok MirrorResult.FetchFailed, [fetchCmd ["ws", "cfg", "repo"]])
    ∧ mirror_repo envRemoteFails "repo" "srcU" "destU" ["ws", "cfg"] =
      (Except.ok MirrorResult.RemotesError,
       [step1Cmd envRemoteFails "repo" "srcU" ["ws", "cfg"],
        remoteCmd ["ws", "cfg", "repo"]])
    ∧ mirror_repo envAddFails "repo" "srcU" "destU" ["ws", "cfg"] =
      (Except.ok MirrorResult.RemotesError,
       [step1Cmd envAddFails "repo" "srcU" ["ws", "cfg"],
        remoteCmd ["ws", "cfg", "repo"],
        remoteAddCmd ["ws", "cfg", "repo"] "destU"])
    ∧ (mirror_repo envPushFails "repo" "srcU" "destU" ["ws", "cfg"]).1 =
      Except.ok MirrorResult.PushFailed :=
  ⟨(mirror_repo_stage_precision envGitAlwaysFails "repo" "srcU" "destU"
      ["ws", "cfg"]).1 rfl rfl,
   (mirror_repo_stage_precision envGitFailsRepoExists "repo" "srcU" "destU"
      ["ws", "cfg"]).2.1 rfl rfl,
   (mirror_repo_stage_precision envRemoteFails "repo" "srcU" "destU"
      ["ws", "cfg"]).2.2.1 rfl rfl,
   (mirror_repo_stage_precision envAddFails "repo" "srcU" "destU"
      ["ws", "cfg"]).2.2.2.1 "" rfl rfl (by decide) rfl,
   (mirror_repo_stage_precision envPushFails "repo" "srcU" "destU"
      ["ws", "cfg"]).2.2.2.2 "" rfl rfl (Or.inr rfl) rfl⟩

/-- Claim C5: for a mirror that reaches the remote-provisioning stage (first
step succeeded, remote discovery succeeded with decodable output `s`), the
number of `remote add` invocations in the trace is 0 when the reserved name
`mirror` is among the whitespace-split tokens of `s`, and 1 when it is
absent. -/
theorem remote_add_iff_absent (env : Env) (name src_url dest_url : String)
    (path : GitPath) (s : String)
    (h1 : (run_git_command env (step1Cmd env name src_url path)).1 = true)
    (h2 : run_git_command env (remoteCmd (path ++ [name])) = (true, Option.some s)) :
    (mirror_repo env name src_url dest_url path).2.countP
        (fun a => a.get? 2 == Option.some "remote" && a.get? 3 == Option.some "add")
      = if MIRROR_REMOTE_NAME ∈ splitWhitespace s then 0 else 1 := by
  rw [mirror_repo_step1_ok env name src_url dest_url path h1,
      mirror_remotes_and_push_eq env dest_url (path ++ [name]) s h2]
  have e1 : (remoteCmd (path ++ [name]))[3]? = (Option.none : Option String) := rfl
  have e2 : (pushCmd (path ++ [name]))[2]? = Option.some "push" := rfl
  have e3 : (remoteAddCmd (path ++ [name]) dest_url)[2]? = Option.some "remote" := rfl
  have e4 : (remoteAddCmd (path ++ [name]) dest_url)[3]? = Option.some "add" := rfl
  have e6 : ¬((step1Cmd env name src_url path)[2]? = Option.some "remote") := by
    unfold step1Cmd
    by_cases hpe : env.pathExists (path ++ [name]) = true
    · rw [if_pos hpe]
      show ¬(Option.some "fetch" = Option.some "remote")
      decide
    · rw [if_neg hpe]
      show ¬(Option.some "clone" = Option.some "remote")
      decide
  by_cases hc : MIRROR_REMOTE_NAME ∈ splitWhitespace s
  · rw [if_pos hc, if_pos hc]
    simp +decide [List.countP_cons, e1, e2, e6]
  · rw [if_neg hc, if_neg hc]
    by_cases hadd : (run_git_command env (remoteAddCmd (path ++ [name]) dest_url)).1 = false
    · rw [if_pos hadd]
      simp +decide [List.countP_cons, e1, e3, e4, e6]
    · rw [if_neg hadd]
      simp +decide [List.countP_cons, e1, e2, e3, e4, e6]

/-- Witness for C5: with empty remote output the `remote add` invocation
appears exactly once; with output listing `mirror` it never appears. -/
theorem remote_add_iff_absent_witness :
    (mirror_repo envGitAllOk "repo" "srcU" "destU" ["ws", "cfg"]).2.countP
        (fun a => a.get? 2 == Option.some "remote" && a.get? 3 == Option.some "add") = 1
    ∧ (mirror_repo envHasMirror "repo" "srcU" "destU" ["ws", "cfg"]).2.countP
        (fun a => a.get? 2 == Option.some "remote" && a.get? 3 == Option.some "add") = 0 := by
  constructor
  · rw [remote_add_iff_absent envGitAllOk "repo" "srcU" "destU" ["ws", "cfg"] "" rfl rfl]
    decide
  · rw [remote_add_iff_absent envHasMirror "repo" "srcU" "destU" ["ws", "cfg"]
        "origin\nmirror\n" rfl rfl]
    decide

/-- Claim C10: when the first step succeeds and the `remote` command exits 0
but its captured output is `none` (stdout was not valid UTF-8),
`mirror_repo` returns `RemotesError` and the trace stops at the `remote`
invocation: neither `remote add` nor `push` is attempted. -/
theorem remote_decode_failure_is_remotes_error (env : Env)
    (name src_url dest_url : String) (path : GitPath)
    (h1 : (run_git_command env (step1Cmd env name src_url path)).1 = true)
    (h2 : run_git_command env (remoteCmd (path ++ [name])) = (true, Option.none)) :
    mirror_repo env name src_url dest_url path =
      (Except.ok MirrorResult.RemotesError,
       [step1Cmd env name src_url path, remoteCmd (path ++ [name])]) := by
  rw [mirror_repo_step1_ok env name src_url dest_url path h1,
      mrp_remote_decode_none env dest_url (path ++ [name]) h2]

/-- Witness for C10 at a concrete environment whose `remote` invocation
exits 0 with undecodable stdout. -/
theorem remote_decode_failure_is_remotes_error_witness :
    mirror_repo envRemoteUtf8Bad "repo" "srcU" "destU" ["ws", "cfg"] =
      (Except.ok MirrorResult.RemotesError,
       [step1Cmd envRemoteUtf8Bad "repo" "srcU" ["ws", "cfg"],
        remoteCmd ["ws", "cfg", "repo"]]) :=
  remote_decode_failure_is_remotes_error envRemoteUtf8Bad "repo" "srcU" "destU"
    ["ws", "cfg"] rfl rfl

lemma mrp_no_verb (env : Env) (dest_url : String) (rp : GitPath) (v : String)
    (hv : "remote" ≠ v) (hv2 : "push" ≠ v) :
    ∀ a ∈ (mirror_remotes_and_push env dest_url rp).2, ¬(a[2]? = Option.some v) := by
  intro a ha
  rcases mrp_trace_verbs env dest_url rp a ha with h | h
  · simp [h, hv]
  · simp [h, hv2]

/-- Claim C4 (counterexample evaluation): the clone-vs-fetch decision is NOT
determined by whether `configDir/name` exists as a directory.  The source
(main.rs:144) tests `repo_path.exists()`, which is also true for a plain
file: in an environment where the repository path exists but nothing is a
directory, no clone is attempted and the first issued command is the fetch,
although `configDir/name` does not exist as a directory. -/
theorem clone_decision_not_directory_based :
    envFileAtRepoPath.isDir ["ws", "cfg", "repo"] = false
    ∧ (mirror_repo envFileAtRepoPath "repo" "srcU" "destU" ["ws", "cfg"]).2.countP
        (fun a => a.get? 2 == Option.some "clone") = 0
    ∧ (mirror_repo envFileAtRepoPath "repo" "srcU" "destU" ["ws", "cfg"]).2.head? =
        Option.some (fetchCmd ["ws", "cfg", "repo"]) :=
  ⟨rfl, by decide, rfl⟩

/-- Claim C4 (amended): the clone-vs-fetch decision is determined solely by
whether `configDir/name` exists as a filesystem entry (`Path::exists`, be it
a directory or not): the first issued command is the clone invocation exactly
when the path does not exist and the fetch invocation exactly when it does,
and across the whole per-mirror trace a `clone` subcommand appears exactly
once in the first case and never in the second, and symmetrically for
`fetch`. -/
theorem clone_iff_path_absent (env : Env) (name src_url dest_url : String)
    (path : GitPath) :
    (mirror_repo env name src_url dest_url path).2.head? =
      Option.some (step1Cmd env name src_url path)
    ∧ (mirror_repo env name src_url dest_url path).2.countP
        (fun a => a.get? 2 == Option.some "clone")
      = (if env.pathExists (path ++ [name]) then 0 else 1)
    ∧ (mirror_repo env name src_url dest_url path).2.countP
        (fun a => a.get? 2 == Option.some "fetch")
      = (if env.pathExists (path ++ [name]) then 1 else 0) := by
  have ecl : (cloneCmd src_url name path)[2]? = Option.some "clone" := rfl
  have efe : (fetchCmd (path ++ [name]))[2]? = Option.some "fetch" := rfl
  have hclz := mrp_no_verb env dest_url (path ++ [name]) "clone"
    (by decide) (by decide)
  have hfez := mrp_no_verb env dest_url (path ++ [name]) "fetch"
    (by decide) (by decide)
  cases hpe : env.pathExists (path ++ [name]) with
  | false =>
    cases hcl : (run_git_command env (cloneCmd src_url name path)).1 with
    | false =>
      rw [mirror_repo_clone_fail env name src_url dest_url path hpe hcl]
      refine ⟨by simp [step1Cmd, hpe], ?_, ?_⟩
      · simp +decide [hpe, List.countP_cons, ecl]
      · simp +decide [hpe, List.countP_cons, ecl]
    | true =>
      rw [mirror_repo_clone_ok env name src_url dest_url path hpe hcl]
      refine ⟨by simp [step1Cmd, hpe], ?_, ?_⟩
      · simp +decide [hpe, List.countP_cons, ecl]
        exact hclz
      · simp +decide [hpe, List.countP_cons, ecl]
        exact hfez
  | true =>
    cases hfe : (run_git_command env (fetchCmd (path ++ [name]))).1 with
    | false =>
      rw [mirror_repo_fetch_fail env name src_url dest_url path hpe hfe]
      refine ⟨by simp [step1Cmd, hpe], ?_, ?_⟩
      · simp +decide [hpe, List.countP_cons, efe]
      · simp +decide [hpe, List.countP_cons, efe]
    | true =>
      rw [mirror_repo_fetch_ok env name src_url dest_url path hpe hfe]
      refine ⟨by simp [step1Cmd, hpe], ?_, ?_⟩
      · simp +decide [hpe, List.countP_cons, efe]
        exact hclz
      · simp +decide [hpe, List.countP_cons, efe]
        exact hfez

end Mira
